import Mathlib

/-!
Shallow embedding of the Delhi Trip Accounts app.

Two sides of the program are embedded:
* the client-side Balance Calculator of `src/App.tsx` (the `// --- Calculations ---`
  block around lines 1259-1286): pure arithmetic from the fixed finance
  parameters and the dynamic expense/income lists;
* the server-side persistence layer of `server.ts`: the SQLite tables
  (`finances`, `expenses`, `incomes`, `places`), the append handlers
  (`POST /api/expenses` etc., whose only failure mode is the `id TEXT
  PRIMARY KEY` constraint), the read handler (`GET /api/data`, which sorts
  each entry table with `ORDER BY id DESC`) and the registration /
  finance-update handlers.

JavaScript numbers are modelled as exact integers (`Int`) for all sums and
as exact rationals (`ℚ`) where the code divides (`safeDailySpend`).
SQLite's BINARY text collation (byte-wise comparison of UTF-8 strings,
which coincides with code-point lexicographic order) is modelled by a
lexicographic comparison on `String.data`.
-/

namespace DelhiTrip

/-- The 8 fixed finance parameters: the `finances` table payload in
`server.ts` and the corresponding React state in `App.tsx`. -/
structure FixedParameters where
  totalBudget : Int
  platinumTicket : Int
  pendingPlatinum : Int
  flightTotal : Int
  myFlightShare : Int
  stay : Int
  expectedIncoming : Int
  baseSavings : Int
deriving DecidableEq, Repr

/-- An expense entry as the client sends it (`App.tsx` `Expense` interface /
`POST /api/expenses` body). -/
structure Expense where
  id : String
  title : String
  amount : Int
  category : String
  accountId : String
  date : String
  time : String
deriving DecidableEq, Repr

/-- An income entry (`App.tsx` `Income` interface / `POST /api/incomes` body). -/
structure Income where
  id : String
  title : String
  amount : Int
  category : String
  accountId : String
  date : String
deriving DecidableEq, Repr

/-- A place entry (`App.tsx` `Place` interface / `POST /api/places` body). -/
structure Place where
  id : String
  title : String
  category : String
deriving DecidableEq, Repr

/-! ## Balance Calculator (`App.tsx` lines 1259-1286) -/

/-- `expenses.filter((e) => e.accountId === "trip")`. -/
def tripExpenses (expenses : List Expense) : List Expense :=
  expenses.filter (fun e => e.accountId == "trip")

/-- `expenses.filter((e) => e.accountId === "savings")`. -/
def savingsExpenses (expenses : List Expense) : List Expense :=
  expenses.filter (fun e => e.accountId == "savings")

/-- `incomes.filter((i) => i.accountId === "trip")`. -/
def tripIncomes (incomes : List Income) : List Income :=
  incomes.filter (fun i => i.accountId == "trip")

/-- `incomes.filter((i) => i.accountId === "savings")`. -/
def savingsIncomes (incomes : List Income) : List Income :=
  incomes.filter (fun i => i.accountId == "savings")

/-- `tripExpenses.reduce((sum, e) => sum + e.amount, 0)`. -/
def tripDynamicSpent (expenses : List Expense) : Int :=
  (tripExpenses expenses).foldl (fun sum e => sum + e.amount) 0

/-- `savingsExpenses.reduce((sum, e) => sum + e.amount, 0)`. -/
def savingsDynamicSpent (expenses : List Expense) : Int :=
  (savingsExpenses expenses).foldl (fun sum e => sum + e.amount) 0

/-- `tripIncomes.reduce((sum, i) => sum + i.amount, 0)`. -/
def tripDynamicIncome (incomes : List Income) : Int :=
  (tripIncomes incomes).foldl (fun sum i => sum + i.amount) 0

/-- `savingsIncomes.reduce((sum, i) => sum + i.amount, 0)`. -/
def savingsDynamicIncome (incomes : List Income) : Int :=
  (savingsIncomes incomes).foldl (fun sum i => sum + i.amount) 0

/-- `platinumTicket - pendingPlatinum + myFlightShare + stay + tripDynamicSpent`. -/
def tripEffectiveSpent (p : FixedParameters) (expenses : List Expense) : Int :=
  p.platinumTicket - p.pendingPlatinum + p.myFlightShare + p.stay +
    tripDynamicSpent expenses

/-- `expectedIncoming + tripDynamicIncome`. -/
def tripTotalIncoming (p : FixedParameters) (incomes : List Income) : Int :=
  p.expectedIncoming + tripDynamicIncome incomes

/-- `totalBudget - tripEffectiveSpent - pendingPlatinum + tripTotalIncoming`. -/
def tripRemainingBalance (p : FixedParameters) (expenses : List Expense)
    (incomes : List Income) : Int :=
  p.totalBudget - tripEffectiveSpent p expenses - p.pendingPlatinum +
    tripTotalIncoming p incomes

/-- `Math.max(0, tripRemainingBalance / 3)`; JavaScript `/` is real division,
modelled exactly in `ℚ`. -/
def safeDailySpend (p : FixedParameters) (expenses : List Expense)
    (incomes : List Income) : ℚ :=
  max 0 ((tripRemainingBalance p expenses incomes : ℚ) / 3)

/-- `baseSavings + savingsDynamicIncome - savingsDynamicSpent`. -/
def totalSavingsBalance (p : FixedParameters) (expenses : List Expense)
    (incomes : List Income) : Int :=
  p.baseSavings + savingsDynamicIncome incomes - savingsDynamicSpent expenses

/-- The concrete parameter set of the spec's worked scenario (§8). -/
def pScenario : FixedParameters :=
  { totalBudget := 30000, platinumTicket := 22500, pendingPlatinum := 11500,
    flightTotal := 22500, myFlightShare := 11250, stay := 2000,
    expectedIncoming := 11250, baseSavings := 50000 }

/-! ## Claims C1-C3 -/

/-- C1, counterexample: at the spec's own scenario parameters with an empty
ledger, `tripRemainingBalance` (which evaluates to 5500) differs from the
claimed closed form totalBudget − platinumTicket − myFlightShare − stay −
pendingPlatinum + expectedIncoming (which evaluates to −6000): the claimed
form keeps a spurious −pendingPlatinum term. -/
theorem C1_closed_form_counterexample :
    tripRemainingBalance pScenario [] [] ≠
      pScenario.totalBudget - pScenario.platinumTicket - pScenario.myFlightShare -
        pScenario.stay - pScenario.pendingPlatinum + pScenario.expectedIncoming := by
  decide

/-- C1, amended: for every `FixedParameters` value with an empty ledger,
`tripRemainingBalance` equals totalBudget − platinumTicket − myFlightShare −
stay + expectedIncoming: the +pendingPlatinum inside `tripEffectiveSpent`
and the explicit −pendingPlatinum cancel, so pendingPlatinum drops out of
the closed form entirely. -/
theorem C1_empty_ledger_closed_form (p : FixedParameters) :
    tripRemainingBalance p [] [] =
      p.totalBudget - p.platinumTicket - p.myFlightShare - p.stay +
        p.expectedIncoming := by
  simp only [tripRemainingBalance, tripEffectiveSpent, tripTotalIncoming,
    tripDynamicSpent, tripDynamicIncome, tripExpenses, tripIncomes,
    List.filter_nil, List.foldl_nil]
  ring

/-- C2, counterexample: at the scenario parameters with an empty ledger the
calculator's `safeDailySpend` is 5500/3 = 1833.333…, not the claimed exact
value 1833.33. -/
theorem C2_safeDailySpend_counterexample :
    safeDailySpend pScenario [] [] ≠ 1833.33 := by
  have h : tripRemainingBalance pScenario [] [] = 5500 := by decide
  unfold safeDailySpend
  rw [h, max_eq_right (by positivity)]
  norm_num

/-- C2, amended: at the scenario parameters with an empty ledger,
tripEffectiveSpent = 24250, tripTotalIncoming = 11250, tripRemainingBalance
= 5500, totalSavingsBalance = 50000, and safeDailySpend is exactly 5500/3
(= 1833.33 only after rounding to two decimals at presentation time). -/
theorem C2_scenario_values :
    tripEffectiveSpent pScenario [] = 24250 ∧
    tripTotalIncoming pScenario [] = 11250 ∧
    tripRemainingBalance pScenario [] [] = 5500 ∧
    safeDailySpend pScenario [] [] = 5500 / 3 ∧
    totalSavingsBalance pScenario [] [] = 50000 := by
  refine ⟨by decide, by decide, by decide, ?_, by decide⟩
  have h : tripRemainingBalance pScenario [] [] = 5500 := by decide
  unfold safeDailySpend
  rw [h, max_eq_right (by positivity)]
  norm_num

/-- C3: for every parameter set and ledger, `safeDailySpend` equals
max(0, tripRemainingBalance / 3) with exact rational division, and is
therefore never negative. -/
theorem C3_safeDailySpend_formula_nonneg (p : FixedParameters)
    (expenses : List Expense) (incomes : List Income) :
    safeDailySpend p expenses incomes =
      max 0 ((tripRemainingBalance p expenses incomes : ℚ) / 3) ∧
    0 ≤ safeDailySpend p expenses incomes :=
  ⟨rfl, le_max_left 0 _⟩

/-! ## Helper lemmas for the calculator -/

/-- A JavaScript `reduce((sum, x) => sum + f(x), init)` is `init` plus the sum
of the mapped values. -/
theorem foldl_add_eq_sum {α : Type} (f : α → Int) (l : List α) (init : Int) :
    l.foldl (fun sum x => sum + f x) init = init + (l.map f).sum := by
  induction l generalizing init with
  | nil => simp
  | cons x xs ih =>
    simp only [List.foldl_cons, List.map_cons, List.sum_cons, ih]
    ring

theorem tripDynamicSpent_eq_sum (expenses : List Expense) :
    tripDynamicSpent expenses = ((tripExpenses expenses).map Expense.amount).sum := by
  simpa using foldl_add_eq_sum Expense.amount (tripExpenses expenses) 0

theorem savingsDynamicSpent_eq_sum (expenses : List Expense) :
    savingsDynamicSpent expenses =
      ((savingsExpenses expenses).map Expense.amount).sum := by
  simpa using foldl_add_eq_sum Expense.amount (savingsExpenses expenses) 0

theorem tripDynamicIncome_eq_sum (incomes : List Income) :
    tripDynamicIncome incomes = ((tripIncomes incomes).map Income.amount).sum := by
  simpa using foldl_add_eq_sum Income.amount (tripIncomes incomes) 0

theorem savingsDynamicIncome_eq_sum (incomes : List Income) :
    savingsDynamicIncome incomes =
      ((savingsIncomes incomes).map Income.amount).sum := by
  simpa using foldl_add_eq_sum Income.amount (savingsIncomes incomes) 0

/-! ## Claim C5 -/

/-- C5: appending expense entries that are all tagged to the "trip" account
raises `tripEffectiveSpent` by exactly the sum of their amounts and lowers
`tripRemainingBalance` by the same sum, all other inputs held fixed. -/
theorem C5_append_trip_expenses (p : FixedParameters)
    (expenses newEntries : List Expense) (incomes : List Income)
    (h : ∀ e ∈ newEntries, e.accountId = "trip") :
    tripEffectiveSpent p (expenses ++ newEntries) =
      tripEffectiveSpent p expenses + (newEntries.map Expense.amount).sum ∧
    tripRemainingBalance p (expenses ++ newEntries) incomes =
      tripRemainingBalance p expenses incomes -
        (newEntries.map Expense.amount).sum := by
  have hfilter : tripExpenses newEntries = newEntries :=
    List.filter_eq_self.mpr fun e he => by
      simpa [beq_iff_eq] using h e he
  have hspent : tripDynamicSpent (expenses ++ newEntries) =
      tripDynamicSpent expenses + (newEntries.map Expense.amount).sum := by
    rw [tripDynamicSpent_eq_sum, tripDynamicSpent_eq_sum]
    unfold tripExpenses at hfilter ⊢
    rw [List.filter_append, List.map_append, List.sum_append, hfilter]
  constructor
  · rw [tripEffectiveSpent, tripEffectiveSpent, hspent]; ring
  · rw [tripRemainingBalance, tripRemainingBalance, tripEffectiveSpent,
      tripEffectiveSpent, hspent]; ring

/-- A sample trip-tagged expense for concrete checks. -/
def eMomos : Expense :=
  { id := "1", title := "momos", amount := 500, category := "Food",
    accountId := "trip", date := "d", time := "t" }

/-- A second sample trip-tagged expense for concrete checks. -/
def eMetro : Expense :=
  { id := "2", title := "metro", amount := 300, category := "Metro",
    accountId := "trip", date := "d", time := "t" }

/-- A large sample trip-tagged expense for concrete checks. -/
def eCab : Expense :=
  { id := "9", title := "cab", amount := 9999, category := "Cab",
    accountId := "trip", date := "d", time := "t" }

/-- A sample savings-tagged expense for concrete checks. -/
def eGift : Expense :=
  { id := "3", title := "gift", amount := 20, category := "Shopping",
    accountId := "savings", date := "d", time := "t" }

/-- C5 witness: two trip-tagged expenses of amounts 500 and 300 raise
`tripEffectiveSpent` by 800 and lower `tripRemainingBalance` by 800. -/
theorem C5_append_trip_expenses_witness :
    (∀ e ∈ [eMomos, eMetro], Expense.accountId e = "trip") ∧
    (tripEffectiveSpent pScenario ([] ++ [eMomos, eMetro]) =
      tripEffectiveSpent pScenario [] +
        (([eMomos, eMetro]).map Expense.amount).sum ∧
     tripRemainingBalance pScenario ([] ++ [eMomos, eMetro]) [] =
      tripRemainingBalance pScenario [] [] -
        (([eMomos, eMetro]).map Expense.amount).sum) :=
  ⟨by decide, C5_append_trip_expenses pScenario [] [eMomos, eMetro] [] (by decide)⟩

/-! ## Claim C6 -/

/-- C6: `totalSavingsBalance` depends only on `baseSavings` and the
savings-tagged expense and income entries; any two inputs agreeing on those
(in particular, inputs differing by trip-tagged entries or by Place entries,
which the formula never reads) give the same `totalSavingsBalance`. -/
theorem C6_savings_isolation (p p' : FixedParameters)
    (es es' : List Expense) (incs incs' : List Income)
    (hb : p.baseSavings = p'.baseSavings)
    (he : savingsExpenses es = savingsExpenses es')
    (hi : savingsIncomes incs = savingsIncomes incs') :
    totalSavingsBalance p es incs = totalSavingsBalance p' es' incs' := by
  unfold totalSavingsBalance savingsDynamicIncome savingsDynamicSpent
  rw [hb, he, hi]

/-- C6 witness: adding a trip-tagged expense of 9999 leaves
`totalSavingsBalance` unchanged at the scenario parameters. -/
theorem C6_savings_isolation_witness :
    (pScenario.baseSavings = pScenario.baseSavings ∧
     savingsExpenses [eCab] = savingsExpenses [] ∧
     savingsIncomes [] = savingsIncomes []) ∧
    totalSavingsBalance pScenario [eCab] [] =
      totalSavingsBalance pScenario [] [] :=
  ⟨⟨rfl, by decide, rfl⟩,
    C6_savings_isolation pScenario pScenario [eCab] [] [] [] rfl (by decide) rfl⟩

/-! ## Claim C7 -/

theorem sum_map_filter_perm {α : Type} (f : α → Int) (pred : α → Bool)
    {l l' : List α} (h : l.Perm l') :
    ((l.filter pred).map f).sum = ((l'.filter pred).map f).sum :=
  ((h.filter pred).map f).sum_eq

/-- C7: all nine derived figures of the Balance Calculator are invariant
under permutation of the expense list and of the income list. -/
theorem C7_order_independent (p : FixedParameters)
    (es es' : List Expense) (incs incs' : List Income)
    (he : es.Perm es') (hi : incs.Perm incs') :
    tripDynamicSpent es = tripDynamicSpent es' ∧
    savingsDynamicSpent es = savingsDynamicSpent es' ∧
    tripDynamicIncome incs = tripDynamicIncome incs' ∧
    savingsDynamicIncome incs = savingsDynamicIncome incs' ∧
    tripEffectiveSpent p es = tripEffectiveSpent p es' ∧
    tripTotalIncoming p incs = tripTotalIncoming p incs' ∧
    tripRemainingBalance p es incs = tripRemainingBalance p es' incs' ∧
    safeDailySpend p es incs = safeDailySpend p es' incs' ∧
    totalSavingsBalance p es incs = totalSavingsBalance p es' incs' := by
  have h1 : tripDynamicSpent es = tripDynamicSpent es' := by
    rw [tripDynamicSpent_eq_sum, tripDynamicSpent_eq_sum]
    exact sum_map_filter_perm Expense.amount _ he
  have h2 : savingsDynamicSpent es = savingsDynamicSpent es' := by
    rw [savingsDynamicSpent_eq_sum, savingsDynamicSpent_eq_sum]
    exact sum_map_filter_perm Expense.amount _ he
  have h3 : tripDynamicIncome incs = tripDynamicIncome incs' := by
    rw [tripDynamicIncome_eq_sum, tripDynamicIncome_eq_sum]
    exact sum_map_filter_perm Income.amount _ hi
  have h4 : savingsDynamicIncome incs = savingsDynamicIncome incs' := by
    rw [savingsDynamicIncome_eq_sum, savingsDynamicIncome_eq_sum]
    exact sum_map_filter_perm Income.amount _ hi
  refine ⟨h1, h2, h3, h4, ?_, ?_, ?_, ?_, ?_⟩ <;>
    simp [tripEffectiveSpent, tripTotalIncoming, tripRemainingBalance,
      safeDailySpend, totalSavingsBalance, h1, h2, h3, h4]

/-- C7 witness: swapping two expenses leaves the remaining balance
unchanged. -/
theorem C7_order_independent_witness :
    ([eMomos, eGift].Perm [eGift, eMomos]) ∧
    tripRemainingBalance pScenario [eMomos, eGift] [] =
      tripRemainingBalance pScenario [eGift, eMomos] [] :=
  ⟨by decide,
    (C7_order_independent pScenario [eMomos, eGift] [eGift, eMomos] [] []
      (by decide) (List.Perm.refl [])).2.2.2.2.2.2.1⟩

/-! ## Claim C10 -/

/-- C10: `flightTotal` is never read by any balance formula: replacing it by
an arbitrary value changes none of the five derived figures. -/
theorem C10_flightTotal_no_effect (p : FixedParameters) (x : Int)
    (es : List Expense) (incs : List Income) :
    tripEffectiveSpent { p with flightTotal := x } es = tripEffectiveSpent p es ∧
    tripTotalIncoming { p with flightTotal := x } incs = tripTotalIncoming p incs ∧
    tripRemainingBalance { p with flightTotal := x } es incs =
      tripRemainingBalance p es incs ∧
    safeDailySpend { p with flightTotal := x } es incs = safeDailySpend p es incs ∧
    totalSavingsBalance { p with flightTotal := x } es incs =
      totalSavingsBalance p es incs :=
  ⟨rfl, rfl, rfl, rfl, rfl⟩

/-! ## Server persistence model (`server.ts`) -/

/-- A row of the `expenses` table (`id TEXT PRIMARY KEY`, `user_id INTEGER`). -/
structure ExpenseRow where
  id : String
  user_id : Nat
  title : String
  amount : Int
  category : String
  accountId : String
  date : String
  time : String
deriving DecidableEq, Repr

/-- A row of the `incomes` table. -/
structure IncomeRow where
  id : String
  user_id : Nat
  title : String
  amount : Int
  category : String
  accountId : String
  date : String
deriving DecidableEq, Repr

/-- A row of the `places` table. -/
structure PlaceRow where
  id : String
  user_id : Nat
  title : String
  category : String
deriving DecidableEq, Repr

/-- A row of the `finances` table (`user_id INTEGER PRIMARY KEY`, every
money column `INTEGER DEFAULT 0`). -/
structure FinanceRow where
  user_id : Nat
  totalBudget : Int
  platinumTicket : Int
  pendingPlatinum : Int
  flightTotal : Int
  myFlightShare : Int
  stay : Int
  expectedIncoming : Int
  baseSavings : Int
deriving DecidableEq, Repr

/-- The four tables of the SQLite database, each as its list of rows in
insertion order. -/
structure DB where
  finances : List FinanceRow
  expenses : List ExpenseRow
  incomes : List IncomeRow
  places : List PlaceRow
deriving DecidableEq, Repr

/-- The freshly created database. -/
def emptyDB : DB :=
  { finances := [], expenses := [], incomes := [], places := [] }

/-- Outcome of an append handler: either the updated database, or the
SQLite primary-key constraint violation that the spec calls
`DuplicateIdError`. -/
inductive AppendResult where
  | ok (db : DB) : AppendResult
  | duplicateIdError : AppendResult
deriving DecidableEq, Repr

/-- The row that `POST /api/expenses` inserts: the request-body fields plus
the authenticated `req.userId`. -/
def expenseRow (userId : Nat) (e : Expense) : ExpenseRow :=
  { id := e.id, user_id := userId, title := e.title, amount := e.amount,
    category := e.category, accountId := e.accountId, date := e.date,
    time := e.time }

/-- The row that `POST /api/incomes` inserts. -/
def incomeRow (userId : Nat) (i : Income) : IncomeRow :=
  { id := i.id, user_id := userId, title := i.title, amount := i.amount,
    category := i.category, accountId := i.accountId, date := i.date }

/-- The row that `POST /api/places` inserts. -/
def placeRow (userId : Nat) (pl : Place) : PlaceRow :=
  { id := pl.id, user_id := userId, title := pl.title,
    category := pl.category }

/-- `POST /api/expenses`: `INSERT INTO expenses ...`. The only failure mode
is the `id TEXT PRIMARY KEY` constraint, which compares the new id against
every existing row of the `expenses` table — all owners, but this table
only. -/
def appendExpense (db : DB) (userId : Nat) (e : Expense) : AppendResult :=
  if db.expenses.any (fun r => r.id == e.id) then .duplicateIdError
  else .ok { db with expenses := db.expenses ++ [expenseRow userId e] }

/-- `POST /api/incomes`: `INSERT INTO incomes ...` under the `incomes`
table's own primary key. -/
def appendIncome (db : DB) (userId : Nat) (i : Income) : AppendResult :=
  if db.incomes.any (fun r => r.id == i.id) then .duplicateIdError
  else .ok { db with incomes := db.incomes ++ [incomeRow userId i] }

/-- `POST /api/places`: `INSERT INTO places ...` under the `places` table's
own primary key. -/
def appendPlace (db : DB) (userId : Nat) (pl : Place) : AppendResult :=
  if db.places.any (fun r => r.id == pl.id) then .duplicateIdError
  else .ok { db with places := db.places ++ [placeRow userId pl] }

/-! ### Text ordering (SQLite BINARY collation) -/

/-- Byte-wise text comparison as SQLite's BINARY collation performs it,
modelled on the code-point list of the string (UTF-8 byte order and
code-point order agree). -/
def lexLe : List Char → List Char → Bool
  | [], _ => true
  | _ :: _, [] => false
  | a :: as, b :: bs => if a = b then lexLe as bs else decide (a < b)

theorem lexLe_trans : ∀ a b c : List Char,
    lexLe a b = true → lexLe b c = true → lexLe a c = true
  | [], _, _ => fun _ _ => rfl
  | _ :: _, [], _ => fun hab _ => by simp [lexLe] at hab
  | _ :: _, _ :: _, [] => fun _ hbc => by simp [lexLe] at hbc
  | x :: xs, y :: ys, z :: zs => by
    intro hab hbc
    simp only [lexLe] at *
    by_cases h1 : x = y
    · subst h1
      rw [if_pos rfl] at hab
      by_cases h2 : x = z
      · subst h2
        rw [if_pos rfl] at hbc ⊢
        exact lexLe_trans xs ys zs hab hbc
      · rw [if_neg h2] at hbc ⊢
        exact hbc
    · rw [if_neg h1] at hab
      by_cases h2 : y = z
      · subst h2
        rw [if_neg h1]
        exact hab
      · rw [if_neg h2] at hbc
        have hxz : x < z := lt_trans (of_decide_eq_true hab) (of_decide_eq_true hbc)
        rw [if_neg (ne_of_lt hxz)]
        exact decide_eq_true hxz

theorem lexLe_total : ∀ a b : List Char, lexLe a b = true ∨ lexLe b a = true
  | [], _ => Or.inl rfl
  | _ :: _, [] => Or.inr rfl
  | a :: as, b :: bs => by
    by_cases hab : a = b
    · subst hab
      simp only [lexLe, if_pos rfl]
      exact lexLe_total as bs
    · rcases lt_or_gt_of_ne hab with h | h
      · left
        simp only [lexLe, if_neg hab]
        exact decide_eq_true h
      · right
        simp only [lexLe, if_neg (Ne.symm hab)]
        exact decide_eq_true h

/-- The `ORDER BY id DESC` relation on expense rows: a row comes first when
its id is byte-wise greater or equal. -/
def expenseIdGe (a b : ExpenseRow) : Prop :=
  lexLe b.id.data a.id.data = true

instance : DecidableRel expenseIdGe :=
  fun a b => Bool.decEq (lexLe b.id.data a.id.data) true

instance : IsTrans ExpenseRow expenseIdGe :=
  ⟨fun _ _ _ hab hbc => lexLe_trans _ _ _ hbc hab⟩

instance : IsTotal ExpenseRow expenseIdGe :=
  ⟨fun a b => lexLe_total b.id.data a.id.data⟩

/-- The `ORDER BY id DESC` relation on income rows. -/
def incomeIdGe (a b : IncomeRow) : Prop :=
  lexLe b.id.data a.id.data = true

instance : DecidableRel incomeIdGe :=
  fun a b => Bool.decEq (lexLe b.id.data a.id.data) true

instance : IsTrans IncomeRow incomeIdGe :=
  ⟨fun _ _ _ hab hbc => lexLe_trans _ _ _ hbc hab⟩

instance : IsTotal IncomeRow incomeIdGe :=
  ⟨fun a b => lexLe_total b.id.data a.id.data⟩

/-- The `ORDER BY id DESC` relation on place rows. -/
def placeIdGe (a b : PlaceRow) : Prop :=
  lexLe b.id.data a.id.data = true

instance : DecidableRel placeIdGe :=
  fun a b => Bool.decEq (lexLe b.id.data a.id.data) true

instance : IsTrans PlaceRow placeIdGe :=
  ⟨fun _ _ _ hab hbc => lexLe_trans _ _ _ hbc hab⟩

instance : IsTotal PlaceRow placeIdGe :=
  ⟨fun a b => lexLe_total b.id.data a.id.data⟩

/-- `GET /api/data`, expenses part: `SELECT * FROM expenses WHERE user_id = ?
ORDER BY id DESC`. Ids are unique (primary key), so the choice of sorting
algorithm is immaterial; insertion sort keeps the model executable. -/
def listExpenses (db : DB) (userId : Nat) : List ExpenseRow :=
  List.insertionSort expenseIdGe
    (db.expenses.filter (fun r => r.user_id == userId))

/-- `GET /api/data`, incomes part. -/
def listIncomes (db : DB) (userId : Nat) : List IncomeRow :=
  List.insertionSort incomeIdGe
    (db.incomes.filter (fun r => r.user_id == userId))

/-- `GET /api/data`, places part. -/
def listPlaces (db : DB) (userId : Nat) : List PlaceRow :=
  List.insertionSort placeIdGe
    (db.places.filter (fun r => r.user_id == userId))

/-- The all-zero parameter set. -/
def zeroParams : FixedParameters :=
  { totalBudget := 0, platinumTicket := 0, pendingPlatinum := 0,
    flightTotal := 0, myFlightShare := 0, stay := 0,
    expectedIncoming := 0, baseSavings := 0 }

/-- The parameters carried by a finances row. -/
def financeParams (r : FinanceRow) : FixedParameters :=
  { totalBudget := r.totalBudget, platinumTicket := r.platinumTicket,
    pendingPlatinum := r.pendingPlatinum, flightTotal := r.flightTotal,
    myFlightShare := r.myFlightShare, stay := r.stay,
    expectedIncoming := r.expectedIncoming, baseSavings := r.baseSavings }

/-- `GET /api/data`, finances part (`SELECT * FROM finances WHERE user_id = ?`
coalesced with `|| {}`), combined with the client's per-field `|| 0`
coalescing in `fetchData`: a missing row reads as all zeros. -/
def getFinances (db : DB) (userId : Nat) : FixedParameters :=
  match db.finances.find? (fun r => r.user_id == userId) with
  | some r => financeParams r
  | none => zeroParams

/-- The finances row created at registration: `INSERT INTO finances
(user_id) VALUES (?)` with every money column at its `DEFAULT 0`. -/
def zeroFinanceRow (userId : Nat) : FinanceRow :=
  { user_id := userId, totalBudget := 0, platinumTicket := 0,
    pendingPlatinum := 0, flightTotal := 0, myFlightShare := 0, stay := 0,
    expectedIncoming := 0, baseSavings := 0 }

/-- The finances row after `POST /api/finances` replaces all 8 money fields
of a row. -/
def financeRowOf (userId : Nat) (p : FixedParameters) : FinanceRow :=
  { user_id := userId, totalBudget := p.totalBudget,
    platinumTicket := p.platinumTicket, pendingPlatinum := p.pendingPlatinum,
    flightTotal := p.flightTotal, myFlightShare := p.myFlightShare,
    stay := p.stay, expectedIncoming := p.expectedIncoming,
    baseSavings := p.baseSavings }

/-- The `UPDATE finances SET ... WHERE user_id = ?` of `POST /api/finances`
applied to the table's rows: every matching row gets all 8 money fields
replaced; no row is created. -/
def setFinancesRows (userId : Nat) (p : FixedParameters)
    (rows : List FinanceRow) : List FinanceRow :=
  rows.map (fun r => if r.user_id == userId then financeRowOf r.user_id p else r)

/-- The server's state-changing requests that touch the ledger model. -/
inductive Op where
  | register (userId : Nat) : Op
  | setFinances (userId : Nat) (p : FixedParameters) : Op
  | addExpense (userId : Nat) (e : Expense) : Op
  | addIncome (userId : Nat) (i : Income) : Op
  | addPlace (userId : Nat) (pl : Place) : Op
deriving DecidableEq, Repr

/-- Whether an operation is a finances update for the given owner. -/
def Op.isSetFinancesFor (userId : Nat) : Op → Bool
  | .setFinances u _ => u == userId
  | _ => false

/-- One request against the database. `register` inserts the zeroed
finances row; `setFinances` is the `UPDATE finances SET ... WHERE user_id
= ?` of `POST /api/finances` (a no-op when no row matches); the append
operations leave the database unchanged when the insert violates the
primary key. -/
def applyOp (db : DB) : Op → DB
  | .register u => { db with finances := db.finances ++ [zeroFinanceRow u] }
  | .setFinances u p => { db with finances := setFinancesRows u p db.finances }
  | .addExpense u e =>
      match appendExpense db u e with
      | .ok db2 => db2
      | .duplicateIdError => db
  | .addIncome u i =>
      match appendIncome db u i with
      | .ok db2 => db2
      | .duplicateIdError => db
  | .addPlace u pl =>
      match appendPlace db u pl with
      | .ok db2 => db2
      | .duplicateIdError => db

/-- A request trace run against the fresh database. -/
def runOps (ops : List Op) : DB :=
  ops.foldl applyOp emptyDB

/-! ## Claim C4 -/

/-- A sample income with id "x". -/
def iX : Income :=
  { id := "x", title := "reimb", amount := 100, category := "Custom source",
    accountId := "trip", date := "d" }

/-- A sample expense with the same id "x". -/
def eX : Expense :=
  { id := "x", title := "chai", amount := 20, category := "Food",
    accountId := "trip", date := "d", time := "t" }

/-- A database where owner 1 holds exactly one income, with id "x". -/
def dbIncomeX : DB := runOps [Op.register 1, Op.addIncome 1 iX]

/-- A database where owner 2 holds an expense with id "x" and owner 1 holds
no entries at all. -/
def dbOtherOwnerX : DB :=
  runOps [Op.register 1, Op.register 2, Op.addExpense 2 eX]

/-- C4, counterexample: (a) owner 1 already has an income with id "x", yet
appending an expense with id "x" for owner 1 succeeds — the primary keys
are per table, not shared across the three entry kinds; (b) owner 1 has no
entries at all, yet appending an expense with id "x" fails, because owner
2's expense occupies the id — the key is global across owners. Both
directions of the claimed equivalence fail. -/
theorem C4_duplicate_scope_counterexample :
    (dbIncomeX.incomes.any (fun r => r.id == eX.id) = true ∧
      appendExpense dbIncomeX 1 eX ≠ AppendResult.duplicateIdError) ∧
    (dbOtherOwnerX.expenses.all (fun r => r.user_id != 1) = true ∧
      dbOtherOwnerX.incomes = [] ∧ dbOtherOwnerX.places = [] ∧
      appendExpense dbOtherOwnerX 1 eX = AppendResult.duplicateIdError) := by
  decide

/-- C4, amended: an append fails with `DuplicateIdError` exactly when the
supplied identifier already occurs in the table of the same entry kind —
regardless of owner — and otherwise appends the new row; the other two
entry kinds' identifiers are irrelevant. -/
theorem C4_append_duplicate_iff (db : DB) (u : Nat) (e : Expense)
    (i : Income) (pl : Place) :
    (appendExpense db u e = AppendResult.duplicateIdError ↔
      db.expenses.any (fun r => r.id == e.id) = true) ∧
    (appendExpense db u e =
        AppendResult.ok { db with expenses := db.expenses ++ [expenseRow u e] } ↔
      db.expenses.any (fun r => r.id == e.id) = false) ∧
    (appendIncome db u i = AppendResult.duplicateIdError ↔
      db.incomes.any (fun r => r.id == i.id) = true) ∧
    (appendIncome db u i =
        AppendResult.ok { db with incomes := db.incomes ++ [incomeRow u i] } ↔
      db.incomes.any (fun r => r.id == i.id) = false) ∧
    (appendPlace db u pl = AppendResult.duplicateIdError ↔
      db.places.any (fun r => r.id == pl.id) = true) ∧
    (appendPlace db u pl =
        AppendResult.ok { db with places := db.places ++ [placeRow u pl] } ↔
      db.places.any (fun r => r.id == pl.id) = false) := by
  unfold appendExpense appendIncome appendPlace
  refine ⟨?_, ?_, ?_, ?_, ?_, ?_⟩ <;> split <;> rename_i h <;> simp [h]

/-! ## Claim C8 -/

/-- An expense appended first but carrying the byte-wise larger id "b". -/
def eIdB : Expense :=
  { id := "b", title := "first", amount := 1, category := "Misc",
    accountId := "trip", date := "d", time := "t" }

/-- An expense appended second but carrying the byte-wise smaller id "a". -/
def eIdA : Expense :=
  { id := "a", title := "second", amount := 2, category := "Misc",
    accountId := "trip", date := "d", time := "t" }

/-- Owner 1 appends id "b" first and id "a" second. -/
def dbOutOfOrder : DB :=
  runOps [Op.register 1, Op.addExpense 1 eIdB, Op.addExpense 1 eIdA]

/-- C8, counterexample: after appending expense id "b" and then id "a",
`listExpenses` returns the id-"b" row first (ORDER BY id DESC), while the
reverse of insertion order would put the id-"a" row first. -/
theorem C8_order_counterexample :
    listExpenses dbOutOfOrder 1 ≠
      (dbOutOfOrder.expenses.filter (fun r => r.user_id == 1)).reverse := by
  decide

/-- C8, amended: each list operation returns exactly the owner's rows of its
kind (a permutation of the owner-filtered table) sorted by identifier in
descending byte-wise order — which agrees with most-recently-appended-first
only when identifiers are appended in increasing order. -/
theorem C8_list_owner_rows_sorted_desc (db : DB) (u : Nat) :
    (listExpenses db u).Perm (db.expenses.filter (fun r => r.user_id == u)) ∧
    List.Sorted expenseIdGe (listExpenses db u) ∧
    (listIncomes db u).Perm (db.incomes.filter (fun r => r.user_id == u)) ∧
    List.Sorted incomeIdGe (listIncomes db u) ∧
    (listPlaces db u).Perm (db.places.filter (fun r => r.user_id == u)) ∧
    List.Sorted placeIdGe (listPlaces db u) :=
  ⟨List.perm_insertionSort _ _, List.sorted_insertionSort _ _,
   List.perm_insertionSort _ _, List.sorted_insertionSort _ _,
   List.perm_insertionSort _ _, List.sorted_insertionSort _ _⟩

/-! ## Claim C9 -/

/-- Invariant: every finances row belonging to the owner is still the
zeroed registration row. -/
def finZero (u : Nat) (db : DB) : Prop :=
  ∀ r ∈ db.finances, r.user_id = u → r = zeroFinanceRow u

theorem addExpense_finances (db : DB) (u2 : Nat) (e : Expense) :
    (applyOp db (.addExpense u2 e)).finances = db.finances := by
  by_cases hc : db.expenses.any (fun r => r.id == e.id) = true <;>
    simp [applyOp, appendExpense, hc]

theorem addIncome_finances (db : DB) (u2 : Nat) (i : Income) :
    (applyOp db (.addIncome u2 i)).finances = db.finances := by
  by_cases hc : db.incomes.any (fun r => r.id == i.id) = true <;>
    simp [applyOp, appendIncome, hc]

theorem addPlace_finances (db : DB) (u2 : Nat) (pl : Place) :
    (applyOp db (.addPlace u2 pl)).finances = db.finances := by
  by_cases hc : db.places.any (fun r => r.id == pl.id) = true <;>
    simp [applyOp, appendPlace, hc]

theorem finZero_applyOp {u : Nat} {db : DB} (q : Op) (hinv : finZero u db)
    (hq : Op.isSetFinancesFor u q = false) : finZero u (applyOp db q) := by
  cases q with
  | register u2 =>
    intro r hr hru
    simp only [applyOp, List.mem_append, List.mem_singleton] at hr
    rcases hr with h | rfl
    · exact hinv r h hru
    · have h2 : u2 = u := hru
      rw [h2]
  | setFinances u2 p =>
    have hne : u2 ≠ u := by simpa [Op.isSetFinancesFor] using hq
    intro r hr hru
    simp only [applyOp, setFinancesRows, List.mem_map] at hr
    obtain ⟨r0, hr0, hr0eq⟩ := hr
    by_cases hcase : r0.user_id = u2
    · rw [if_pos (by simpa using hcase)] at hr0eq
      rw [← hr0eq] at hru
      exact absurd (hcase ▸ hru) hne
    · rw [if_neg (by simpa using hcase)] at hr0eq
      rw [← hr0eq]
      exact hinv r0 hr0 (hr0eq ▸ hru)
  | addExpense u2 e =>
    intro r hr hru
    rw [addExpense_finances] at hr
    exact hinv r hr hru
  | addIncome u2 i =>
    intro r hr hru
    rw [addIncome_finances] at hr
    exact hinv r hr hru
  | addPlace u2 pl =>
    intro r hr hru
    rw [addPlace_finances] at hr
    exact hinv r hr hru

theorem finZero_foldl (u : Nat) : ∀ (ops : List Op) (db : DB),
    finZero u db → ops.all (fun q => ! Op.isSetFinancesFor u q) = true →
    finZero u (ops.foldl applyOp db)
  | [], _, hinv, _ => hinv
  | q :: ops, db, hinv, hall => by
    rw [List.foldl_cons]
    rw [List.all_cons, Bool.and_eq_true] at hall
    obtain ⟨hq, hrest⟩ := hall
    have h1 : Op.isSetFinancesFor u q = false := by simpa using hq
    exact finZero_foldl u ops _ (finZero_applyOp q hinv h1) hrest

/-- C9: for any request trace in which `POST /api/finances` was never
issued for the owner, reading the owner's fixed parameters yields the
all-zero record — whether the owner registered (zero-default row) or never
existed (missing row coalesced to zeros) — and this is a normal result,
not an error. -/
theorem C9_get_unset_owner_zero (ops : List Op) (u : Nat)
    (h : ops.all (fun q => ! Op.isSetFinancesFor u q) = true) :
    getFinances (runOps ops) u = zeroParams := by
  have hinv : finZero u (runOps ops) :=
    finZero_foldl u ops emptyDB (fun r hr _ => absurd hr (by simp [emptyDB])) h
  unfold getFinances
  cases hf : (runOps ops).finances.find? (fun r => r.user_id == u) with
  | none => rfl
  | some r =>
    have hmem := List.mem_of_find?_eq_some hf
    have hpred := List.find?_some hf
    have hru : r.user_id = u := by simpa using hpred
    rw [hinv r hmem hru]
    rfl

/-- The trace for the C9 witness: owner 1 registers and appends an expense;
only owner 2 ever sets finances. -/
def opsC9 : List Op :=
  [Op.register 1, Op.addExpense 1 eMomos, Op.setFinances 2 pScenario]

/-- C9 witness: on the concrete trace, owner 1's parameters read as all
zeros. -/
theorem C9_get_unset_owner_zero_witness :
    (opsC9.all (fun q => ! Op.isSetFinancesFor 1 q) = true) ∧
    getFinances (runOps opsC9) 1 = zeroParams :=
  ⟨by decide, C9_get_unset_owner_zero opsC9 1 (by decide)⟩

end DelhiTrip
